import Mathlib

/-!
Verification of the emission-line tie-graph resolver, basis-template builder
and per-spectrum fit orchestration of `mangadap/proc/sasuke.py`
(class `EmissionLineTemplates` and class `Sasuke`).

The Python source is shallowly embedded below.  NumPy integer arrays become
`List Int`, boolean arrays become `List Bool`, and the record of an
emission-line database row becomes the structure `ELine`.  The source stores
a line's tie mode as a raw string such as `"a12"`; `mode[0]` (the mode code
character) is embedded as the field `mode : Char` and `int(mode[1:])` (the
tie-target line index, absent for plain `"f"`/`"w"` modes) as
`tie : Option Int`.  The unbounded `while` loop of
`EmissionLineTemplates._parse_emission_line_database` is embedded with an
explicit fuel parameter; `LoopRes.fuelOut` means the loop was still running
after the given number of full passes.
-/

/-- One row of the emission-line database (`mangadap.par.emissionlinedb`):
`idx` is the `index` column, `mode` the first character of the `mode` column,
`tie` the integer written after that character (when any), `action` the
`action` column, and `profile` the line's evaluated profile on the template
wavelength grid, i.e. the vector `profile(v, p)` that
`EmissionLineTemplates.build_templates` accumulates into `self.flux[i,:]`
(sasuke.py line 385); its numeric evaluation from `flux`, `restwave` and the
instrumental dispersion is kept abstract. -/
structure ELine where
  idx : Int
  mode : Char
  tie : Option Int
  action : Char
  profile : List Int
deriving DecidableEq

/-- `self.emldb['action'] != 'f'` for one line (sasuke.py line 207). -/
def is_ignored (l : ELine) : Bool :=
  l.action != 'f'

/-- `m[0] == 'a'` for one line (sasuke.py line 211). -/
def is_tied_all (l : ELine) : Bool :=
  l.mode == 'a'

/-- `(self.emldb['mode'] == 'f') & ~ignore_line` for one line (sasuke.py
line 222); the string comparison `mode == 'f'` holds exactly when the mode
code is `f` and no tie target follows it. -/
def is_primary (l : ELine) : Bool :=
  (l.mode == 'f') && l.tie.isNone && !(is_ignored l)

/-- `self.ntpl = self.emldb.neml - numpy.sum(ignore_line) - numpy.sum(tied_all)`
(sasuke.py line 212). -/
def ntpl (db : List ELine) : Int :=
  (db.length : Int) - ((db.filter is_ignored).length : Int)
    - ((db.filter is_tied_all).length : Int)

/-- `nprimary = numpy.sum(primary_line)` (sasuke.py line 223). -/
def nprimary (db : List ELine) : Nat :=
  (db.filter (fun l => is_primary l)).length

/-- State of `_parse_emission_line_database`: the `finished` work list and
the `tpli`, `comp`, `vgrp`, `sgrp` arrays (sasuke.py lines 215-229). -/
structure PState where
  finished : List Bool
  tpli : List Int
  comp : List Int
  vgrp : List Int
  sgrp : List Int
deriving DecidableEq

/-- `self.tpli = zeros(neml)-1; self.tpli[primary_line] = arange(nprimary)`
(sasuke.py lines 221-224): primary lines receive 0,1,2,... in database
order, every other line keeps -1. -/
def init_tpli : List ELine → Nat → List Int
  | [], _ => []
  | l :: rest, k =>
    if is_primary l then (k : Int) :: init_tpli rest (k + 1)
    else (-1) :: init_tpli rest k

/-- `comp = zeros(ntpl)-1; comp[:nprimary] = arange(nprimary)` and the same
for `vgrp` and `sgrp` (sasuke.py lines 215-227). -/
def init_groups (db : List ELine) : List Int :=
  (List.range (ntpl db).toNat).map (fun i => if i < nprimary db then (i : Int) else -1)

/-- `finished = primary_line | ignore_line` (sasuke.py line 229). -/
def init_finished (db : List ELine) : List Bool :=
  db.map (fun l => is_primary l || is_ignored l)

/-- The parser state right before the `while` loop of
`_parse_emission_line_database` starts. -/
def init_state (db : List ELine) : PState :=
  { finished := init_finished db
    tpli := init_tpli db 0
    comp := init_groups db
    vgrp := init_groups db
    sgrp := init_groups db }

/-- `EmissionLineTemplates._tied_index(i)` with `primary=False` (sasuke.py
lines 160-167): the first database row whose `index` column equals the
integer after the mode code of line `i`.  `none` embeds the `ValueError` /
`IndexError` the source raises when the mode has no trailing integer or no
row carries that index. -/
def tied_index (db : List ELine) (i : Nat) : Option Nat :=
  match (db.get? i).bind (fun l => l.tie) with
  | none => none
  | some t => db.findIdx? (fun l => l.idx == t)

/-- `numpy.amax` on the integer arrays used by the parser; the source raises
on an empty array, which no reachable call site produces, so an arbitrary
default of `-1` stands in for that error. -/
def amax : List Int → Int
  | [] => -1
  | x :: xs => xs.foldl max x

/-- The body of the `for i in range(self.emldb.neml)` loop inside the
resolution `while` loop (sasuke.py lines 232-266) for a single `i`:
skip finished lines, look up the tie target, retry later (state unchanged)
when the target is not finished, and otherwise mark the line finished and
apply the group-assignment rule of its mode code.  `none` embeds a raised
exception from `_tied_index`. -/
def parse_step (db : List ELine) (s : PState) (i : Nat) : Option PState :=
  if s.finished.getD i true then some s
  else
    match tied_index db i with
    | none => none
    | some indx =>
      if !(s.finished.getD indx false) then some s
      else
        let fin := s.finished.set i true
        let m := ((db.get? i).map ELine.mode).getD ' '
        if m == 'a' then
          some { s with finished := fin, tpli := s.tpli.set i (s.tpli.getD indx (-1)) }
        else if m == 'k' then
          let t := amax s.tpli + 1
          let src := (s.tpli.getD indx (-1)).toNat
          some { finished := fin
                 tpli := s.tpli.set i t
                 comp := s.comp.set t.toNat (s.comp.getD src (-1))
                 vgrp := s.vgrp.set t.toNat (s.vgrp.getD src (-1))
                 sgrp := s.sgrp.set t.toNat (s.sgrp.getD src (-1)) }
        else if m == 'v' then
          let t := amax s.tpli + 1
          let src := (s.tpli.getD indx (-1)).toNat
          some { finished := fin
                 tpli := s.tpli.set i t
                 comp := s.comp.set t.toNat (amax s.comp + 1)
                 sgrp := s.sgrp.set t.toNat (amax s.sgrp + 1)
                 vgrp := s.vgrp.set t.toNat (s.vgrp.getD src (-1)) }
        else if m == 's' then
          let t := amax s.tpli + 1
          let src := (s.tpli.getD indx (-1)).toNat
          some { finished := fin
                 tpli := s.tpli.set i t
                 comp := s.comp.set t.toNat (amax s.comp + 1)
                 vgrp := s.vgrp.set t.toNat (amax s.vgrp + 1)
                 sgrp := s.sgrp.set t.toNat (s.sgrp.getD src (-1)) }
        else
          some { s with finished := fin }

/-- One full pass of the `for` loop over all database rows. -/
def parse_pass (db : List ELine) (s : PState) : Option PState :=
  (List.range db.length).foldl (fun acc i => acc.bind (fun st => parse_step db st i)) (some s)

/-- Result of running the resolution `while` loop for a bounded number of
passes: `done` is normal exit (`numpy.sum(finished) == neml`), `crashed` is
an exception raised inside a pass, and `fuelOut` means the loop condition
was still true after consuming all passes — the source loop, which has no
pass bound, is still running. -/
inductive LoopRes
  | done (s : PState)
  | crashed
  | fuelOut
deriving DecidableEq

/-- `while numpy.sum(finished) != self.emldb.neml:` (sasuke.py line 230),
with an explicit bound on the number of passes. -/
def parse_loop (db : List ELine) : Nat → PState → LoopRes
  | 0, s =>
    if s.finished.count true = db.length then LoopRes.done s else LoopRes.fuelOut
  | fuel + 1, s =>
    if s.finished.count true = db.length then LoopRes.done s
    else
      match parse_pass db s with
      | none => LoopRes.crashed
      | some s2 => parse_loop db fuel s2

/-- `EmissionLineTemplates._parse_emission_line_database` run with one pass
of fuel per database row — enough for every database on which the source
loop terminates at all within that many passes. -/
def parse_db (db : List ELine) : LoopRes :=
  parse_loop db db.length (init_state db)

/-- The `comp` array produced by the parser, when it terminates. -/
def parsed_comp (db : List ELine) : Option (List Int) :=
  match parse_db db with
  | LoopRes.done s => some s.comp
  | _ => none

/-- Errors raised by database validation. -/
inductive DBErr
  | invalidDatabase
  | unsupportedMode
  | parseInvariant
deriving DecidableEq

/-- Modelled from the spec: `EmissionLineFit.check_emission_line_database`
(mangadap/proc/spectralfitting.py is not under src/), the general validation
that `EmissionLineTemplates.check_database` runs first (sasuke.py line 305).
Per the spec's validation taxonomy, a database with zero primary lines is
fatal ("the database does not provide a valid definition for any
templates"). -/
def check_emission_line_database (db : List ELine) : Except DBErr Unit :=
  if db.any (fun l => is_primary l) then Except.ok ()
  else Except.error DBErr.invalidDatabase

/-- `EmissionLineTemplates.check_database` (sasuke.py lines 273-313): run the
general database check, then raise `ValueError` when any line has mode code
`x` ("Cannot tie only fluxes in an EmissionLineTemplates object."); a mode
code `w` only triggers a warning and does not change the result. -/
def check_database (db : List ELine) : Except DBErr Unit :=
  match check_emission_line_database db with
  | Except.error e => Except.error e
  | Except.ok _ =>
    if db.any (fun l => l.mode == 'x') then Except.error DBErr.unsupportedMode
    else Except.ok ()

/-- Pointwise sum of two equally long basis rows (`self.flux[i,:] += ...`). -/
def add_vec (a b : List Int) : List Int :=
  a.zipWith (· + ·) b

/-- The template construction loop of `build_templates` (sasuke.py lines
372-385): row `i` of `self.flux` starts at zero and accumulates the profile
of every database line `j` with `tpli[j] == i`. -/
def build_flux (tpli : List Int) (profiles : List (List Int)) (npix ntpl : Nat) :
    List (List Int) :=
  (List.range ntpl).map (fun i =>
    (List.range tpli.length).foldl
      (fun row j =>
        if tpli.getD j (-1) == (i : Int) then add_vec row (profiles.getD j []) else row)
      (List.replicate npix 0))

/-- The four arrays returned by `build_templates` (sasuke.py line 387). -/
structure BuildOut where
  flux : List (List Int)
  comp : List Int
  vgrp : List Int
  sgrp : List Int
deriving DecidableEq

/-- Outcome of `build_templates`: a built template set, a raised validation
error, or a parse loop that crashed or never exited. -/
inductive BuildRes
  | built (out : BuildOut)
  | failed (e : DBErr)
  | stuck
deriving DecidableEq

/-- `EmissionLineTemplates.build_templates` (sasuke.py lines 316-387):
validate the database, parse it (including the parser's final
`comp/vgrp/sgrp >= 0` invariant check at lines 269-270), then build the
basis rows. -/
def build_templates (npix : Nat) (db : List ELine) : BuildRes :=
  match check_database db with
  | Except.error e => BuildRes.failed e
  | Except.ok _ =>
    match parse_db db with
    | LoopRes.done st =>
      if st.comp.any (fun c => decide (c < 0)) || st.vgrp.any (fun c => decide (c < 0))
          || st.sgrp.any (fun c => decide (c < 0)) then
        BuildRes.failed DBErr.parseInvariant
      else
        BuildRes.built
          { flux := build_flux st.tpli (db.map ELine.profile) npix st.comp.length
            comp := st.comp
            vgrp := st.vgrp
            sgrp := st.sgrp }
    | _ => BuildRes.stuck

/-!
The tied-kinematic-parameter compilation of `Sasuke.fit`
(sasuke.py lines 1315-1353).
-/

/-- `numpy.sum(numpy.absolute(cm))` for a moments vector. -/
def nat_abs_sum (cm : List Int) : Nat :=
  (cm.map Int.natAbs).sum

/-- `numpy.sum(numpy.absolute(self.comp_moments[:c]))`: the index of the
first flat kinematic slot of component `c` (sasuke.py lines 1327 and
1333). -/
def comp_par_offset (cm : List Int) (c : Int) : Nat :=
  nat_abs_sum (cm.take c.toNat)

/-- `self.tied[parn[1:]] = 'p[{0}]'.format(parn[0])` (sasuke.py lines 1328
and 1334): tie every slot listed after the first to the first. -/
def tie_writes (tied : List (Option Nat)) (parn : List Nat) : List (Option Nat) :=
  match parn with
  | [] => tied
  | p0 :: rest => rest.foldl (fun t k => t.set k (some p0)) tied

/-- `self.tpl_comp[tpl_index[self.tpl_vgrp == i]]` (and the sigma analogue):
the components of the templates whose velocity (resp. sigma) group is `i`,
in template order. -/
def group_members (tplComp tplGrp : List Int) (i : Nat) : List Int :=
  (tplComp.zip tplGrp).filterMap (fun p => if p.2 == (i : Int) then some p.1 else none)

/-- The tied-parameter vector built by `Sasuke.fit` (sasuke.py lines
1317-1336): one slot per kinematic moment, `none` for a free slot (the
source's empty string) and `some k` for a slot tied to flat slot `k` (the
source's `'p[k]'`).  Components with negative moments are skipped. -/
def sasuke_tied (cm tplComp tplVgrp tplSgrp : List Int) : List (Option Nat) :=
  (List.range cm.length).foldl
    (fun tied i =>
      if cm.getD i 0 < 0 then tied
      else
        let iv := group_members tplComp tplVgrp i
        let tied2 :=
          if iv.length > 1 then tie_writes tied (iv.map (fun c => 0 + comp_par_offset cm c))
          else tied
        let isg := group_members tplComp tplSgrp i
        if isg.length > 1 then tie_writes tied2 (isg.map (fun c => 1 + comp_par_offset cm c))
        else tied2)
    (List.replicate (nat_abs_sum cm) none)

/-- `self.nfree_kin = numpy.sum([len(t) == 0 for t in self.tied])`
(sasuke.py line 1337). -/
def sasuke_nfree_kin (cm tplComp tplVgrp tplSgrp : List Int) : Nat :=
  (sasuke_tied cm tplComp tplVgrp tplSgrp).countP (fun t => t.isNone)

/-- The degrees of freedom computed by `Sasuke.fit` (sasuke.py lines
1339-1344): `self.dof = self.nfree_kin
+ numpy.sum(self.comp_moments[self.comp_moments < 0]) + max(self.mdegree, 0)`
plus `self.degree + 1` when `self.degree >= 0`. -/
def sasuke_dof (cm tplComp tplVgrp tplSgrp : List Int) (mdeg deg : Int) : Int :=
  (sasuke_nfree_kin cm tplComp tplVgrp tplSgrp : Int)
    + (cm.filter (fun m => decide (m < 0))).sum
    + max mdeg 0
    + (if deg ≥ 0 then deg + 1 else 0)

/-- The degrees-of-freedom count as the specification words it: free
kinematic parameters PLUS the sum of the absolute moment counts of the
fixed (negative-moment) components, plus `max(mdegree, 0)`, plus
`degree + 1` when the additive polynomial is used. -/
def spec_dof (cm tplComp tplVgrp tplSgrp : List Int) (mdeg deg : Int) : Int :=
  (sasuke_nfree_kin cm tplComp tplVgrp tplSgrp : Int)
    + ((((cm.filter (fun m => decide (m < 0))).map Int.natAbs).sum : Nat) : Int)
    + max mdeg 0
    + (if deg ≥ 0 then deg + 1 else 0)

/-!
The per-spectrum fit loop `Sasuke._run_fit_iteration` (sasuke.py lines
527-603) and the two-pass driver `Sasuke._fit_all_spectra` (lines 606-647).
The external optimizer `ppxf` (mangadap/contrib/ppxf.py, a black-box
collaborator per the spec) is an oracle `Nat → OptOut` giving, for each
spectrum index, either a raised exception or a returned solution with a
convergence flag.
-/

/-- The data of spectrum `i` that the loop body reads: `obj_to_fit[i]`, the
good-pixel count `len(gpm)` and the active-template count
`numpy.sum(self.tpl_to_use[i,:])`. -/
structure SpecData where
  toFit : Bool
  goodPix : Nat
  activeTpl : Nat
deriving DecidableEq

/-- What one call of the external optimizer does. -/
inductive OptOut
  | raised
  | sol (converged : Bool)
deriving DecidableEq

/-- The per-spectrum outcome stored in `result[i]`: `noFit` is the `None`
stored for spectra not flagged to fit, `emptyFit` is the
`PPXFFitResult(..., None, ...)` stored on insufficient data (its external
`empty_fit()` is then true), and `fitted c` is a completed optimizer call
with convergence flag `c`. -/
inductive FitResult
  | noFit
  | emptyFit
  | fitted (converged : Bool)
deriving DecidableEq

/-- Modelled from the spec: `PPXFFitResult.fit_failed`
(mangadap/proc/ppxffit.py is not under src/).  Per the spec's per-spectrum
state machine, a result has failed when no optimizer solution exists or the
optimizer signalled non-convergence; the source's refit filter
`r is None or r.fit_failed()` is exactly this predicate. -/
def fit_failed : FitResult → Bool
  | FitResult.noFit => true
  | FitResult.emptyFit => true
  | FitResult.fitted c => !c

/-- The body of the `for i in range(self.nobj)` loop of
`_run_fit_iteration` (sasuke.py lines 543-598) for spectrum `i`: store
`None` when the spectrum is not to be fit, store an empty result without
calling the optimizer when `len(gpm) < self.dof + ntpl_to_use`, and
otherwise call the optimizer — whose raised exception, being uncaught,
aborts the whole loop (`Except.error`). -/
def fit_one_spectrum (dof : Int) (opt : Nat → OptOut) (i : Nat) (s : SpecData) :
    Except Unit FitResult :=
  if s.toFit = false then Except.ok FitResult.noFit
  else if (s.goodPix : Int) < dof + (s.activeTpl : Int) then Except.ok FitResult.emptyFit
  else
    match opt i with
    | OptOut.raised => Except.error ()
    | OptOut.sol c => Except.ok (FitResult.fitted c)

/-- The loop of `_run_fit_iteration` from spectrum `k` onwards. -/
def run_fit_iteration_go (dof : Int) (opt : Nat → OptOut) :
    Nat → List SpecData → Except Unit (List FitResult)
  | _, [] => Except.ok []
  | k, s :: rest =>
    match fit_one_spectrum dof opt k s with
    | Except.error e => Except.error e
    | Except.ok r =>
      match run_fit_iteration_go dof opt (k + 1) rest with
      | Except.error e => Except.error e
      | Except.ok rs => Except.ok (r :: rs)

/-- `Sasuke._run_fit_iteration` (sasuke.py lines 527-603). -/
def run_fit_iteration (dof : Int) (opt : Nat → OptOut) (specs : List SpecData) :
    Except Unit (List FitResult) :=
  run_fit_iteration_go dof opt 0 specs

/-- The spectrum data of the rejection refit pass (sasuke.py lines 628-643):
`obj_to_fit` is restricted by `&= ~(r is None or r.fit_failed())`, and the
good-pixel counts change because `PPXFFit.reject_model_outliers` (external)
has grown the masks — `newGoodPix` carries those updated counts. -/
def second_pass_specs (specs : List SpecData) (r1 : List FitResult) (newGoodPix : List Nat) :
    List SpecData :=
  (List.range specs.length).map (fun i =>
    { toFit := (specs.getD i ⟨false, 0, 0⟩).toFit && !(fit_failed (r1.getD i FitResult.noFit))
      goodPix := newGoodPix.getD i 0
      activeTpl := (specs.getD i ⟨false, 0, 0⟩).activeTpl })

/-- `Sasuke._fit_all_spectra` (sasuke.py lines 606-647): one fit pass over
all spectra; when `self.reject_boxcar` is `None` that single pass is
returned, otherwise the rejection masks are recomputed (`rej_good_pix`
stands for the external `PPXFFit.reject_model_outliers` mask update) and
exactly one refit pass runs over the restricted spectra.  The second
component of the result counts how many times `_run_fit_iteration` was
invoked. -/
def fit_all_spectra (dof : Int) (reject_boxcar : Option Nat) (specs : List SpecData)
    (opt1 opt2 : Nat → OptOut) (rej_good_pix : List FitResult → List Nat) :
    Except Unit (List FitResult × Nat) :=
  match run_fit_iteration dof opt1 specs with
  | Except.error e => Except.error e
  | Except.ok r1 =>
    match reject_boxcar with
    | none => Except.ok (r1, 1)
    | some _ =>
      match run_fit_iteration dof opt2 (second_pass_specs specs r1 (rej_good_pix r1)) with
      | Except.error e => Except.error e
      | Except.ok r2 => Except.ok (r2, 2)

/-- The per-spectrum status flags set by `Sasuke._save_results` (sasuke.py
lines 796-821): `None` results get `NO_FIT`; empty fits get `NO_FIT` on the
model mask and `INSUFFICIENT_DATA` on the parameter masks; failed fits get
`FIT_FAILED`; completed converged fits get none of these.  (`MAXITER`, set
from the external `reached_maxiter()`, is not modelled.) -/
inductive MaskFlag
  | noFitFlag
  | insufficientData
  | fitFailedFlag
deriving DecidableEq

/-- The status flags `_save_results` turns on for one spectrum, as a
function of that spectrum's own `result[i]` alone. -/
def save_spectrum_flags : FitResult → List MaskFlag
  | FitResult.noFit => [MaskFlag.noFitFlag]
  | FitResult.emptyFit => [MaskFlag.noFitFlag, MaskFlag.insufficientData]
  | FitResult.fitted false => [MaskFlag.fitFailedFlag]
  | FitResult.fitted true => []

/-!
The return statements of `Sasuke.fit`.  When
`PPXFFit.initialize_pixels_to_fit` reports an error for every spectrum the
function returns early (sasuke.py lines 1406-1416); otherwise it returns at
line 1446.
-/

/-- The components a `Sasuke.fit` return tuple can carry. -/
inductive RetField
  | wave
  | flux
  | emlFlux
  | mask
  | fitPar
  | emlPar
deriving DecidableEq

/-- The tuple returned by `Sasuke.fit` as a function of the per-spectrum
pixel-initialization error flags `ended_in_error` (sasuke.py line 1406):
when every spectrum ended in error the early return at line 1416 yields
`(obj_wave, model_flux, model_eml_flux, model_mask, model_eml_par)`;
otherwise line 1446 yields `(obj_wave, model_flux, model_eml_flux,
model_mask, model_fit_par, model_eml_par)`. -/
def fit_return_fields (ended_in_error : List Bool) : List RetField :=
  if ended_in_error.all (fun e => e = true) then
    [RetField.wave, RetField.flux, RetField.emlFlux, RetField.mask, RetField.emlPar]
  else
    [RetField.wave, RetField.flux, RetField.emlFlux, RetField.mask, RetField.fitPar,
     RetField.emlPar]

/-!
The boundary-proximity check `Sasuke._is_near_bounds` (sasuke.py lines
664-692).  The kinematic vectors are real-valued, so this part of the
embedding lives in `ℝ`; `numpy.log10` is `Real.logb 10`.

A Python detail that matters here: `_lbound = lbound` binds a second name to
the same NumPy array — it does not copy — so the in-place update
`_lbound[vel_indx] += kininp[vel_indx]` mutates the caller's `lbound` (and
likewise `ubound`).  The embedding therefore returns, besides the two flag
vectors, the post-call contents of the caller's two bound arrays.
-/

/-- Contents of a bound array after `_lbound[vel_indx] += kininp[vel_indx]`
(sasuke.py lines 675-678). -/
noncomputable def bound_after (b kininp : ℝ) (vel : Bool) : ℝ :=
  if vel then b + kininp else b

/-- The width array `Db` (sasuke.py lines 681-682): `Db = ubound - lbound`
computed from the (already mutated, aliased) bound arrays, then overwritten
at the sigma entries by `log10(ubound[sig]) - log10(lbound[sig])`. -/
noncomputable def near_bounds_width (lb ub kininp : ℝ) (vel sig : Bool) : ℝ :=
  if sig then Real.logb 10 (bound_after ub kininp vel) - Real.logb 10 (bound_after lb kininp vel)
  else bound_after ub kininp vel - bound_after lb kininp vel

/-- `near_lower_bound = kin - _lbound < tol` with `tol = Db * tol_frac`
(sasuke.py lines 683-687), for one parameter slot. -/
def near_lower_bound (kin kininp lb ub : ℝ) (vel sig : Bool) (tol_frac : ℝ) : Prop :=
  kin - bound_after lb kininp vel < near_bounds_width lb ub kininp vel sig * tol_frac

/-- `near_bound = near_lower_bound | (_ubound - kin < tol)` (sasuke.py
line 689), for one parameter slot. -/
def near_bound (kin kininp lb ub : ℝ) (vel sig : Bool) (tol_frac : ℝ) : Prop :=
  near_lower_bound kin kininp lb ub vel sig tol_frac
    ∨ bound_after ub kininp vel - kin < near_bounds_width lb ub kininp vel sig * tol_frac

/-- Everything a call of `_is_near_bounds` leaves behind for parameter slot
`i`: the two returned flags, and the contents of the caller's `lbound` and
`ubound` arrays after the call (mutated in place through the alias). -/
structure NearBoundsCall (n : ℕ) where
  near : Fin n → Prop
  nearLower : Fin n → Prop
  lboundOut : Fin n → ℝ
  uboundOut : Fin n → ℝ

/-- `Sasuke._is_near_bounds` (sasuke.py lines 664-692), slotwise over the
flattened kinematic vector. -/
noncomputable def is_near_bounds {n : ℕ} (kin kininp lb ub : Fin n → ℝ)
    (vel sig : Fin n → Bool) (tol_frac : ℝ) : NearBoundsCall n :=
  { near := fun i => near_bound (kin i) (kininp i) (lb i) (ub i) (vel i) (sig i) tol_frac
    nearLower := fun i => near_lower_bound (kin i) (kininp i) (lb i) (ub i) (vel i) (sig i) tol_frac
    lboundOut := fun i => bound_after (lb i) (kininp i) (vel i)
    uboundOut := fun i => bound_after (ub i) (kininp i) (vel i) }

/-- The near-a-bound criterion as the specification words it: the distance
to the bound is less than `tol_frac` of the allowed range, where for the
dispersion parameter BOTH the range and the distance are computed in log
space, and for velocity parameters the bounds are taken relative to the
initial guess. -/
noncomputable def spec_near_bound (kin kininp lb ub : ℝ) (vel sig : Bool) (tol_frac : ℝ) :
    Prop :=
  if sig then
    Real.logb 10 kin - Real.logb 10 lb < tol_frac * (Real.logb 10 ub - Real.logb 10 lb)
      ∨ Real.logb 10 ub - Real.logb 10 kin < tol_frac * (Real.logb 10 ub - Real.logb 10 lb)
  else if vel then
    kin - (lb + kininp) < tol_frac * (ub - lb) ∨ (ub + kininp) - kin < tol_frac * (ub - lb)
  else
    kin - lb < tol_frac * (ub - lb) ∨ ub - kin < tol_frac * (ub - lb)

/-!
Concrete databases used by the theorems.
-/

/-- A two-line database in which line 0 ties everything to line 1 and line 1
ties everything back to line 0 (modes `a1` and `a0`), neither line is
`Primary` and neither is ignored. -/
def dbCyc : List ELine :=
  [{ idx := 0, mode := 'a', tie := some 1, action := 'f', profile := [] },
   { idx := 1, mode := 'a', tie := some 0, action := 'f', profile := [] }]

/-- The spec's three-line example: line 0 `Primary` (`f`), line 1 `TieAll`
to line 0 (`a0`), line 2 `TieKinematics` to line 0 (`k0`), all with
`action=f`; the abstract profiles are `[1,0]`, `[0,2]`, `[3,0]` on a
two-pixel grid. -/
def db3 : List ELine :=
  [{ idx := 0, mode := 'f', tie := none, action := 'f', profile := [1, 0] },
   { idx := 1, mode := 'a', tie := some 0, action := 'f', profile := [0, 2] },
   { idx := 2, mode := 'k', tie := some 0, action := 'f', profile := [3, 0] }]

/-- A database with one primary line and one `TieFluxOnly` (`x0`) line. -/
def dbX : List ELine :=
  [{ idx := 0, mode := 'f', tie := none, action := 'f', profile := [1] },
   { idx := 1, mode := 'x', tie := some 0, action := 'f', profile := [1] }]

/-!
Theorems.
-/

/-- Claim C1: for the two-line tie cycle `dbCyc` (neither line `Primary`,
neither ignored), the resolution `while` loop of
`EmissionLineTemplates._parse_emission_line_database` never exits, no matter
how many passes it is allowed: every pass leaves the state unchanged and the
exit condition stays false, so the source — whose loop has no progress check
— runs forever instead of raising the fatal validation error the claim
describes. -/
theorem C1_two_line_cycle_never_exits :
    ∀ fuel : Nat, parse_loop dbCyc fuel (init_state dbCyc) = LoopRes.fuelOut := by
  have hpass : parse_pass dbCyc (init_state dbCyc) = some (init_state dbCyc) := by decide
  have hcount : ¬ ((init_state dbCyc).finished.count true = dbCyc.length) := by decide
  intro fuel
  induction fuel with
  | zero => simp [parse_loop, hcount]
  | succ n ih =>
    simp only [parse_loop, if_neg hcount, hpass]
    exact ih

/-- Claim C6, counterexample: on the database `[Primary, TieAll→0,
TieKinematics→0]` the parser does not produce per-template components
`[0,1]`; it produces `[0,0]` (the `TieKinematics` template joins the
target's kinematic component, sasuke.py line 248). -/
theorem C6_counterexample :
    ¬ (parsed_comp db3 = some [0, 1]) ∧ parsed_comp db3 = some [0, 0] := by
  decide

/-- Claim C6 as amended: the database `[Primary, TieAll→0, TieKinematics→0]`
resolves to exactly 2 templates, with lines 0 and 1 in template 0 and line 2
in template 1 (`tpli = [0,0,1]`), per-template components `[0,0]`, velocity
groups `[0,0]` and sigma groups `[0,0]`, and the built basis sums the
profiles of lines 0 and 1 into template 0's row while template 1's row is
line 2's profile. -/
theorem C6_amended :
    parse_db db3 =
      LoopRes.done
        { finished := [true, true, true], tpli := [0, 0, 1], comp := [0, 0],
          vgrp := [0, 0], sgrp := [0, 0] }
    ∧ build_templates 2 db3 =
      BuildRes.built
        { flux := [[1, 2], [3, 0]], comp := [0, 0], vgrp := [0, 0], sgrp := [0, 0] } := by
  decide

/-- Claim C7: any database containing a line with mode code `x`
(`TieFluxOnly`) makes `build_templates` fail during validation — no basis
spectrum is ever constructed — and when the general database check passes
the error is precisely the unsupported-mode `ValueError` of
`check_database` (sasuke.py lines 308-309). -/
theorem C7_tie_flux_only_rejected (npix : Nat) (db : List ELine)
    (hx : db.any (fun l => l.mode == 'x') = true) :
    (∃ e, build_templates npix db = BuildRes.failed e)
    ∧ (check_emission_line_database db = Except.ok () →
        build_templates npix db = BuildRes.failed DBErr.unsupportedMode) := by
  constructor
  · cases hc : check_emission_line_database db with
    | error e => exact ⟨e, by simp [build_templates, check_database, hc]⟩
    | ok u => exact ⟨DBErr.unsupportedMode, by simp [build_templates, check_database, hc, hx]⟩
  · intro hok
    simp [build_templates, check_database, hok, hx]

/-- Witness for C7 at the concrete database `dbX`. -/
theorem C7_witness :
    build_templates 1 dbX = BuildRes.failed DBErr.unsupportedMode :=
  (C7_tie_flux_only_rejected 1 dbX (by decide)).2 rfl

/-- Claim C9: the early-return path of `Sasuke.fit` (every spectrum's pixel
initialization failed, sasuke.py line 1416) returns a 5-tuple that omits
`model_fit_par`, while the normal path (line 1446) returns a 6-tuple — the
arity is NOT the same on every path. -/
theorem C9_early_return_drops_fit_par :
    (fit_return_fields [true]).length = 5
    ∧ (fit_return_fields [false]).length = 6
    ∧ RetField.fitPar ∈ fit_return_fields [false]
    ∧ RetField.fitPar ∉ fit_return_fields [true] := by
  decide

/-- Summing the negative entries of an integer list is the negation of
summing their absolute values. -/
theorem sum_filter_neg_eq_neg_abs_sum (l : List Int) :
    (l.filter (fun m => decide (m < 0))).sum
      = -((((l.filter (fun m => decide (m < 0))).map Int.natAbs).sum : Nat) : Int) := by
  induction l with
  | nil => simp
  | cons x xs ih =>
    by_cases hx : x < 0
    · simp only [List.filter_cons, decide_eq_true_eq, hx, if_true, List.map_cons,
        List.sum_cons, ih, Nat.cast_add]
      omega
    · simp only [List.filter_cons, decide_eq_true_eq, hx, if_false]
      exact ih

/-- Claim C3, counterexample: for the compiled tie specification with a
fixed stellar component (`comp_moments = [-2, 2, 2]`, template components
`[0,1,2]`, velocity groups `[0,1,1]`, sigma groups `[0,1,2]`,
`mdegree = 0`, `degree = -1`), `Sasuke.fit` computes `dof = 3`
(it adds the signed, negative `numpy.sum(comp_moments[comp_moments < 0])`),
whereas the claim's formula — adding the sum of the absolute moment counts
of the fixed components — gives 7. -/
theorem C3_counterexample :
    sasuke_dof [-2, 2, 2] [0, 1, 2] [0, 1, 1] [0, 1, 2] 0 (-1) = 3
    ∧ spec_dof [-2, 2, 2] [0, 1, 2] [0, 1, 1] [0, 1, 2] 0 (-1) = 7
    ∧ (3 : Int) ≠ 7 := by
  decide

/-- Claim C3 as amended: for every compiled tie specification, the
degrees-of-freedom count computed by `Sasuke.fit` equals the number of
untied kinematic slots (which includes the fixed components' slots) MINUS
the sum of the absolute moment counts of the fixed (negative-moment)
components, plus `max(mdegree, 0)`, plus `degree + 1` when the additive
polynomial is used (`degree >= 0`). -/
theorem C3_amended (cm tplComp tplVgrp tplSgrp : List Int) (mdeg deg : Int) :
    sasuke_dof cm tplComp tplVgrp tplSgrp mdeg deg
      = (sasuke_nfree_kin cm tplComp tplVgrp tplSgrp : Int)
          - ((((cm.filter (fun m => decide (m < 0))).map Int.natAbs).sum : Nat) : Int)
          + max mdeg 0
          + (if deg ≥ 0 then deg + 1 else 0) := by
  unfold sasuke_dof
  rw [sum_filter_neg_eq_neg_abs_sum]
  ring

/-- When the fit loop starting at spectrum `k` returns normally, it returns
one result per spectrum, and the result of each spectrum is exactly the
outcome of that spectrum's own loop body. -/
theorem run_fit_go_pointwise (dof : Int) (opt : Nat → OptOut) :
    ∀ (specs : List SpecData) (k : Nat) (rs : List FitResult),
      run_fit_iteration_go dof opt k specs = Except.ok rs →
      rs.length = specs.length ∧
        ∀ j t, specs.get? j = some t →
          ∃ r, rs.get? j = some r ∧ fit_one_spectrum dof opt (k + j) t = Except.ok r := by
  intro specs
  induction specs with
  | nil =>
    intro k rs h
    simp only [run_fit_iteration_go] at h
    cases h
    exact ⟨rfl, fun j t ht => by simp at ht⟩
  | cons s rest ih =>
    intro k rs h
    simp only [run_fit_iteration_go] at h
    cases hf : fit_one_spectrum dof opt k s with
    | error e => rw [hf] at h; cases h
    | ok r =>
      rw [hf] at h
      cases hrec : run_fit_iteration_go dof opt (k + 1) rest with
      | error e => rw [hrec] at h; cases h
      | ok rs2 =>
        rw [hrec] at h
        cases h
        obtain ⟨hlen, hpt⟩ := ih (k + 1) rs2 hrec
        refine ⟨by simp [hlen], ?_⟩
        intro j t ht
        cases j with
        | zero =>
          simp only [List.get?_cons_zero, Option.some.injEq] at ht
          subst ht
          exact ⟨r, rfl, by simpa using hf⟩
        | succ j =>
          simp only [List.get?_cons_succ] at ht
          obtain ⟨r2, hr2, hfit2⟩ := hpt j t ht
          refine ⟨r2, by simpa using hr2, ?_⟩
          have hk : k + (j + 1) = (k + 1) + j := by omega
          rw [hk]
          exact hfit2

/-- An optimizer oracle that raises on the first spectrum and would succeed
on every other spectrum. -/
def optRaise0 : Nat → OptOut :=
  fun i => if i = 0 then OptOut.raised else OptOut.sol true

/-- Claim C2, counterexample: with two fit-worthy spectra and an optimizer
that raises on spectrum 0 and would converge on spectrum 1, the loop of
`_run_fit_iteration` — which wraps the `ppxf` call in no exception handler —
propagates the exception: the whole batch aborts and spectrum 1's result is
never produced, contradicting the claim that a per-spectrum optimizer
failure never prevents other spectra's results from being returned. -/
theorem C2_counterexample :
    run_fit_iteration 0 optRaise0
        [{ toFit := true, goodPix := 5, activeTpl := 1 },
         { toFit := true, goodPix := 5, activeTpl := 1 }] = Except.error ()
    ∧ fit_all_spectra 0 none
        [{ toFit := true, goodPix := 5, activeTpl := 1 },
         { toFit := true, goodPix := 5, activeTpl := 1 }] optRaise0 optRaise0
        (fun _ => [5, 5]) = Except.error () := by
  exact ⟨rfl, rfl⟩

/-- Claim C2 as amended: when the optimizer signals non-convergence (without
raising) for one spectrum of a batch that completes, that spectrum's result
is `fitted false`, `_save_results` turns on `FIT_FAILED` in that spectrum's
own mask only, and every other spectrum's result is exactly its own
independent loop-body outcome. -/
theorem C2_failed_fit_isolated (dof : Int) (opt : Nat → OptOut) (specs : List SpecData)
    (rs : List FitResult) (i : Nat) (s : SpecData)
    (hok : run_fit_iteration dof opt specs = Except.ok rs)
    (hs : specs.get? i = some s)
    (hfit : s.toFit = true)
    (hdata : ¬ ((s.goodPix : Int) < dof + (s.activeTpl : Int)))
    (hnc : opt i = OptOut.sol false) :
    rs.get? i = some (FitResult.fitted false)
    ∧ save_spectrum_flags (FitResult.fitted false) = [MaskFlag.fitFailedFlag]
    ∧ ∀ j t, j ≠ i → specs.get? j = some t →
        ∃ r, rs.get? j = some r ∧ fit_one_spectrum dof opt j t = Except.ok r := by
  obtain ⟨hlen, hpt⟩ := run_fit_go_pointwise dof opt specs 0 rs hok
  obtain ⟨r, hr, hfi⟩ := hpt i s hs
  have heval : fit_one_spectrum dof opt (0 + i) s = Except.ok (FitResult.fitted false) := by
    simp [fit_one_spectrum, hfit, hdata, hnc]
  rw [heval] at hfi
  cases hfi
  refine ⟨hr, rfl, ?_⟩
  intro j t hj ht
  obtain ⟨r2, hr2, hfit2⟩ := hpt j t ht
  exact ⟨r2, hr2, by simpa using hfit2⟩

/-- An optimizer oracle that signals non-convergence on the first spectrum
and converges on every other spectrum. -/
def optNoConv0 : Nat → OptOut :=
  fun i => if i = 0 then OptOut.sol false else OptOut.sol true

/-- Witness for the amended C2 on a concrete two-spectrum batch. -/
theorem C2_witness :
    ([FitResult.fitted false, FitResult.fitted true] : List FitResult).get? 0
        = some (FitResult.fitted false)
    ∧ save_spectrum_flags (FitResult.fitted false) = [MaskFlag.fitFailedFlag] := by
  have h := C2_failed_fit_isolated 0 optNoConv0
      [{ toFit := true, goodPix := 5, activeTpl := 1 },
       { toFit := true, goodPix := 5, activeTpl := 1 }]
      [FitResult.fitted false, FitResult.fitted true] 0
      { toFit := true, goodPix := 5, activeTpl := 1 }
      rfl rfl rfl (by norm_num) rfl
  exact ⟨h.1, h.2.1⟩

/-- Claim C4: a fit-worthy spectrum whose good-pixel count is strictly below
`dof` plus its active-template count gets the empty result without the
optimizer ever being consulted (its loop-body outcome is `emptyFit` for
every oracle and every index), `_save_results` marks it `NO_FIT` +
`INSUFFICIENT_DATA`, and in any completed batch every other spectrum's
result is exactly its own independent loop-body outcome. -/
theorem C4_insufficient_data_skipped (dof : Int) (opt : Nat → OptOut) (specs : List SpecData)
    (i : Nat) (s : SpecData)
    (hs : specs.get? i = some s)
    (hfit : s.toFit = true)
    (hins : (s.goodPix : Int) < dof + (s.activeTpl : Int)) :
    (∀ (o : Nat → OptOut) (k : Nat), fit_one_spectrum dof o k s = Except.ok FitResult.emptyFit)
    ∧ save_spectrum_flags FitResult.emptyFit
        = [MaskFlag.noFitFlag, MaskFlag.insufficientData]
    ∧ ∀ rs, run_fit_iteration dof opt specs = Except.ok rs →
        rs.get? i = some FitResult.emptyFit
        ∧ ∀ j t, j ≠ i → specs.get? j = some t →
            ∃ r, rs.get? j = some r ∧ fit_one_spectrum dof opt j t = Except.ok r := by
  have heval : ∀ (o : Nat → OptOut) (k : Nat),
      fit_one_spectrum dof o k s = Except.ok FitResult.emptyFit := by
    intro o k
    simp [fit_one_spectrum, hfit, hins]
  refine ⟨heval, rfl, ?_⟩
  intro rs hok
  obtain ⟨hlen, hpt⟩ := run_fit_go_pointwise dof opt specs 0 rs hok
  obtain ⟨r, hr, hfi⟩ := hpt i s hs
  rw [heval opt (0 + i)] at hfi
  cases hfi
  refine ⟨hr, ?_⟩
  intro j t hj ht
  obtain ⟨r2, hr2, hfit2⟩ := hpt j t ht
  exact ⟨r2, hr2, by simpa using hfit2⟩

/-- Witness for C4: the skipped spectrum's loop body yields the empty result
even under an oracle that raises everywhere — the optimizer is never
invoked. -/
theorem C4_witness :
    fit_one_spectrum 5 (fun _ => OptOut.raised) 7
        { toFit := true, goodPix := 2, activeTpl := 1 } = Except.ok FitResult.emptyFit :=
  (C4_insufficient_data_skipped 5 (fun _ => OptOut.sol true)
      [{ toFit := true, goodPix := 2, activeTpl := 1 }] 0
      { toFit := true, goodPix := 2, activeTpl := 1 }
      rfl rfl (by norm_num)).1 (fun _ => OptOut.raised) 7

/-- Claim C5: when the first pass completes, `_fit_all_spectra` with
rejection disabled returns that single pass (pass count 1), and with
rejection enabled runs exactly one refit pass (pass count 2) over the
spectra whose first-pass fit succeeded (`obj_to_fit &= ~(r is None or
r.fit_failed())`), with the good-pixel counts of the updated rejection
mask. -/
theorem C5_exactly_one_rejection_refit (dof : Int) (bc : Nat) (specs : List SpecData)
    (opt1 opt2 : Nat → OptOut) (rej : List FitResult → List Nat) (r1 : List FitResult)
    (h1 : run_fit_iteration dof opt1 specs = Except.ok r1) :
    fit_all_spectra dof none specs opt1 opt2 rej = Except.ok (r1, 1)
    ∧ fit_all_spectra dof (some bc) specs opt1 opt2 rej
        = Except.map (fun r2 => (r2, 2))
            (run_fit_iteration dof opt2 (second_pass_specs specs r1 (rej r1)))
    ∧ ∀ i, i < specs.length →
        ((second_pass_specs specs r1 (rej r1)).getD i ⟨false, 0, 0⟩).toFit
            = ((specs.getD i ⟨false, 0, 0⟩).toFit
                && !(fit_failed (r1.getD i FitResult.noFit)))
          ∧ ((second_pass_specs specs r1 (rej r1)).getD i ⟨false, 0, 0⟩).goodPix
            = (rej r1).getD i 0 := by
  refine ⟨by simp [fit_all_spectra, h1], ?_, ?_⟩
  · simp only [fit_all_spectra, h1]
    cases h2 : run_fit_iteration dof opt2 (second_pass_specs specs r1 (rej r1)) <;>
      simp [Except.map]
  · intro i hi
    constructor <;>
      simp [second_pass_specs, List.getD_eq_getElem?_getD, List.getElem?_map,
        List.getElem?_range, hi]

/-- Witness for C5 on a concrete one-spectrum batch. -/
theorem C5_witness :
    fit_all_spectra 0 none [{ toFit := true, goodPix := 3, activeTpl := 1 }]
        (fun _ => OptOut.sol true) (fun _ => OptOut.sol true) (fun _ => [3])
      = Except.ok ([FitResult.fitted true], 1) :=
  (C5_exactly_one_rejection_refit 0 5 [{ toFit := true, goodPix := 3, activeTpl := 1 }]
      (fun _ => OptOut.sol true) (fun _ => OptOut.sol true) (fun _ => [3])
      [FitResult.fitted true] rfl).1

/-- The natural logarithm of 10 exceeds 2. -/
theorem two_lt_log_ten : (2 : ℝ) < Real.log 10 := by
  rw [Real.lt_log_iff_exp_lt (by norm_num)]
  have h1 : Real.exp 2 = Real.exp 1 * Real.exp 1 := by
    rw [← Real.exp_add]; norm_num
  have h2 : Real.exp 1 < 2.7182818286 := Real.exp_one_lt_d9
  have h3 : (0 : ℝ) < Real.exp 1 := Real.exp_pos 1
  nlinarith

/-- Claim C8, counterexample: for a single dispersion slot with bounds
`[10, 1000]`, fitted value `10.1` and `tol_frac = 1/100`, the source's check
(linear distance `0.1` against the log-space tolerance
`(log10 1000 - log10 10)/100 = 0.02`) does NOT flag the parameter, whereas
the claim's criterion (log-space distance `log10 10.1 - log10 10 < 0.02`)
DOES flag it: the code computes only the range in log space, not the
distance. -/
theorem C8_counterexample :
    ¬ (is_near_bounds (fun _ : Fin 1 => (10.1 : ℝ)) (fun _ => 0) (fun _ => 10)
        (fun _ => 1000) (fun _ => false) (fun _ => true) (1 / 100)).near 0
    ∧ spec_near_bound 10.1 0 10 1000 false true (1 / 100) := by
  have hlog10 : (2 : ℝ) < Real.log 10 := two_lt_log_ten
  have hlogb10 : Real.logb 10 10 = 1 := Real.logb_self_eq_one (by norm_num)
  have hlogb1000 : Real.logb 10 1000 = 3 := by
    rw [show (1000 : ℝ) = 10 ^ (3 : ℕ) by norm_num, Real.logb_pow, hlogb10]
    norm_num
  have h101 : Real.logb 10 10.1 = 1 + Real.logb 10 1.01 := by
    rw [show (10.1 : ℝ) = 10 * 1.01 by norm_num,
      Real.logb_mul (by norm_num) (by norm_num), hlogb10]
  have hsmall : Real.logb 10 1.01 < 1 / 50 := by
    have hdef : Real.logb 10 1.01 = Real.log 1.01 / Real.log 10 := rfl
    have ha : Real.log 1.01 ≤ 0.01 := by
      have := Real.log_le_sub_one_of_pos (x := 1.01) (by norm_num)
      linarith
    have hpos : (0 : ℝ) < Real.log 10 := by linarith
    rw [hdef, div_lt_iff₀ hpos]
    nlinarith
  constructor
  · simp only [is_near_bounds, near_bound, near_lower_bound, near_bounds_width, bound_after,
      if_false, Bool.false_eq_true, if_true, hlogb10, hlogb1000]
    push_neg
    norm_num
  · simp only [spec_near_bound, if_true]
    left
    rw [h101, hlogb10, hlogb1000]
    linarith

/-- Claim C8 as amended: the source flags a parameter near a bound exactly
when its distance to the bound is below `tol_frac` of the allowed range,
where for the dispersion parameter only the RANGE (hence the tolerance) is
computed in log space while the distance stays linear, and for velocity
parameters the bounds are offset by the initial guess while the range (and
tolerance) is the unshifted one. -/
theorem C8_near_bound_characterization {n : ℕ} (kin kininp lb ub : Fin n → ℝ)
    (vel sig : Fin n → Bool) (tol_frac : ℝ) (i : Fin n)
    (h : ¬ (vel i = true ∧ sig i = true)) :
    (is_near_bounds kin kininp lb ub vel sig tol_frac).near i ↔
      (if sig i then
        kin i - lb i < (Real.logb 10 (ub i) - Real.logb 10 (lb i)) * tol_frac
          ∨ ub i - kin i < (Real.logb 10 (ub i) - Real.logb 10 (lb i)) * tol_frac
      else if vel i then
        kin i - (lb i + kininp i) < (ub i - lb i) * tol_frac
          ∨ (ub i + kininp i) - kin i < (ub i - lb i) * tol_frac
      else
        kin i - lb i < (ub i - lb i) * tol_frac
          ∨ ub i - kin i < (ub i - lb i) * tol_frac) := by
  cases hv : vel i <;> cases hs : sig i
  · simp [is_near_bounds, near_bound, near_lower_bound, near_bounds_width, bound_after, hv, hs]
  · simp [is_near_bounds, near_bound, near_lower_bound, near_bounds_width, bound_after, hv, hs]
  · simp only [is_near_bounds, near_bound, near_lower_bound, near_bounds_width, bound_after,
      hv, hs, if_true, if_false, Bool.false_eq_true]
    rw [show ub i + kininp i - (lb i + kininp i) = ub i - lb i from by ring]
  · exact absurd ⟨hv, hs⟩ h

/-- Witness for the amended C8 on a single plain (neither velocity nor
sigma) slot with bounds `[0, 10]`, value `5`, `tol_frac = 1/100`. -/
theorem C8_witness :
    ¬ (is_near_bounds (fun _ : Fin 1 => (5 : ℝ)) (fun _ => 0) (fun _ => 0) (fun _ => 10)
        (fun _ => false) (fun _ => false) (1 / 100)).near 0 := by
  rw [C8_near_bound_characterization (fun _ : Fin 1 => (5 : ℝ)) (fun _ => 0) (fun _ => 0)
      (fun _ => 10) (fun _ => false) (fun _ => false) (1 / 100) 0 (by simp)]
  norm_num

/-- Claim C10: `_is_near_bounds` does NOT leave its `lbound` (or `ubound`)
argument unchanged — `_lbound = lbound` aliases the caller's array and the
in-place `+=` mutates it.  For a velocity slot with lower bound `-300` and
velocity guess `1000`, the caller's lower bound is `700` after one call and
`1700` after a second call with the same guess, so successive iterations of
the `_save_results` loop evaluate the check against compounded bounds. -/
theorem C10_bounds_mutated_in_place :
    ((is_near_bounds (fun _ : Fin 1 => (0 : ℝ)) (fun _ => 1000) (fun _ => -300)
        (fun _ => 300) (fun _ => true) (fun _ => false) (1 / 100)).lboundOut 0 = 700)
    ∧ ((700 : ℝ) ≠ -300)
    ∧ ((is_near_bounds (fun _ : Fin 1 => (0 : ℝ)) (fun _ => 1000)
          ((is_near_bounds (fun _ : Fin 1 => (0 : ℝ)) (fun _ => 1000) (fun _ => -300)
              (fun _ => 300) (fun _ => true) (fun _ => false) (1 / 100)).lboundOut)
          (fun _ => 300) (fun _ => true) (fun _ => false) (1 / 100)).lboundOut 0 = 1700) := by
  refine ⟨?_, by norm_num, ?_⟩ <;> simp [is_near_bounds, bound_after] <;> norm_num
